import Mathlib

/-!
Verification of the start-core mission verification engine.

Shallow embedding of the pass/fail–relevant logic of the repository:
`src/start_core/mission.py` (the packaged revision) and the earlier
top-level `mission.py` revision, together with `attack.py`
(`Attacker.was_successful`) and `helper.py` (`distance`).

Real-valued quantities (latitudes, longitudes, distances) are modelled
over `ℚ`; the only real-valued operation the verdict logic performs is a
comparison of `sqrt(S) * K` against a non-negative tolerance `m`, which
is equivalent to comparing `S * K^2` against `m^2`, so every comparison
below is stated in that squared form and stays inside `ℚ`.
-/

namespace StartCore

/-- `dronekit.LocationGlobal`: latitude, longitude, altitude. -/
structure LocationGlobal where
  lat : ℚ
  lon : ℚ
  alt : ℚ
  deriving DecidableEq

/-- The fields of a `dronekit.Command` that this code reads or writes
(`parse_command` builds one; the oracle generator reads `command`, `x`,
`y`, `z`). The three leading zero arguments of the dronekit constructor
(target system / component / seq) are omitted: the code always passes
literal `0` for them. -/
structure Command where
  frame : Int
  command : Int
  current : Int
  autocontinue : Int
  p1 : ℚ
  p2 : ℚ
  p3 : ℚ
  p4 : ℚ
  x : ℚ
  y : ℚ
  z : ℚ
  deriving DecidableEq

/-- The `Oracle` attrs class of `src/start_core/mission.py`. -/
structure Oracle where
  num_waypoints_visited : Int
  end_position : LocationGlobal
  max_distance : ℚ
  deriving DecidableEq

/-- The `(bool, reason)` pairs returned by `Mission.execute`:
`(True, None)` is `passed`, `(False, msg)` is `failed msg`. -/
inductive Verdict where
  | passed
  | failed (reason : String)
  deriving DecidableEq

/-- The scale constant `1.113195e5` of `helper.distance`. -/
def kScale : ℚ := 1113195 / 10

/-- The radicand of `helper.distance loc_x loc_y`:
`d_lat^2 + d_long^2` with `d_lat = loc_y.lat - loc_x.lat`,
`d_long = loc_y.lon - loc_x.lon`. The distance itself is
`sqrt (distanceSq x y) * kScale`. -/
def distanceSq (loc_x loc_y : LocationGlobal) : ℚ :=
  (loc_y.lat - loc_x.lat) * (loc_y.lat - loc_x.lat) +
    (loc_y.lon - loc_x.lon) * (loc_y.lon - loc_x.lon)

/-- The comparison `distance x y > m` of the code, in squared form:
for `m ≥ 0`, `sqrt S * K > m  ↔  S * K^2 > m^2` (both sides of the
original comparison are non-negative and squaring is monotone). -/
def distanceGt (loc_x loc_y : LocationGlobal) (m : ℚ) : Bool :=
  decide (m * m < distanceSq loc_x loc_y * (kScale * kScale))

/-- The comparison `distance x y < m` of the earlier revision, in squared
form (same monotonicity argument, `m = 3.0 ≥ 0` there). -/
def distanceLt (loc_x loc_y : LocationGlobal) (m : ℚ) : Bool :=
  decide (distanceSq loc_x loc_y * (kScale * kScale) < m * m)

/-- The verdict computed by `Mission.execute` of `src/start_core/mission.py`
(lines 275–291) once the mission-complete flag is set: the waypoint check

    sat_wps = actual_num_wps_visited >= self.oracle.num_waypoints_visited
    if check_wps and sat_wps:
        return (False, "vehicle didn't visit all of the WPs")

followed by the terminal-distance check

    dist = distance(self.oracle.end_position, pos_last)
    if dist > self.oracle.max_distance:
        return (True, None)
    else:
        return (False, "vehicle was too far away from expected end position")
-/
def completionVerdict (check_wps : Bool) (actual_num_wps_visited : Int)
    (oracle : Oracle) (pos_last : LocationGlobal) : Verdict :=
  let sat_wps : Bool := decide (oracle.num_waypoints_visited ≤ actual_num_wps_visited)
  if check_wps && sat_wps then
    .failed "vehicle didn't visit all of the WPs"
  else if distanceGt oracle.end_position pos_last oracle.max_distance then
    .passed
  else
    .failed "vehicle was too far away from expected end position"

/-- The corresponding verdict logic of the earlier revision
(top-level `mission.py`, lines 270–283):

    if check_wps and actual_num_wps_visited < expected_num_wps_visited:
        return (False, "vehicle didn't visit all of the WPs")
    dist = helper.distance(self.expected_end_position, pos_last)
    if dist < 3.0:
        return (True, None)
    else:
        return (False, "vehicle was too far away from expected end position")
-/
def completionVerdictOld (check_wps : Bool)
    (actual_num_wps_visited expected_num_wps_visited : Int)
    (expected_end_position pos_last : LocationGlobal) : Verdict :=
  if check_wps && decide (actual_num_wps_visited < expected_num_wps_visited) then
    .failed "vehicle didn't visit all of the WPs"
  else if distanceLt expected_end_position pos_last 3 then
    .passed
  else
    .failed "vehicle was too far away from expected end position"

/-- The time-limit adjustment at the top of `Mission.execute`
(`src/start_core/mission.py` lines 177–181):

    if speedup > 1:
        time_limit = int(time_limit / speedup) + 10

(the earlier revision computes `int((time_limit / speedup) + 10)`, which
is the same value on natural-number inputs since the added `10` is an
integer). Time limits and speed-ups are non-negative integer seconds /
factors, so `Nat` division is exactly the truncating division the code
performs. -/
def adjustTimeLimit (time_limit speedup : Nat) : Nat :=
  if 1 < speedup then time_limit / speedup + 10 else time_limit

/-- `Python str.startswith`, on character lists. -/
def isPrefixChars : List Char → List Char → Bool
  | [], _ => true
  | _ :: _, [] => false
  | p :: ps, c :: cs => p == c && isPrefixChars ps cs

/-- The first prefix test of the `on_waypoint` handler
(`src/start_core/mission.py` lines 229–231): texts meaning "one
waypoint/command reached". -/
def isWaypointReachedText (text : String) : Bool :=
  isPrefixChars "Reached waypoint #".toList text.toList ||
    isPrefixChars "Reached command #".toList text.toList ||
    isPrefixChars "Skipping invalid cmd".toList text.toList

/-- The second prefix test of the `on_waypoint` handler (lines 235–237):
texts meaning "mission terminal"; the "Disarming motors" pattern counts
only when the vehicle is a Copter. -/
def isMissionTerminalText (is_copter : Bool) (text : String) : Bool :=
  isPrefixChars "Reached destination".toList text.toList ||
    isPrefixChars "Mission Complete".toList text.toList ||
    (isPrefixChars "Disarming motors".toList text.toList && is_copter)

/-- The run-local state that the `on_waypoint` handler can actually
mutate: `mission_complete` and `actual_num_wps_visited` are
single-element lists in the Python source precisely so the nested
handler can update them.

The handler's line `pos_last = conn.location.global_frame` does NOT
belong here: in Python, a plain assignment inside a nested function
binds a fresh function-local name, so the enclosing `pos_last` (sampled
at line 221, before the mission starts) is never updated. The handler is
therefore position-free in this embedding. -/
structure MonitorState where
  mission_complete : Bool
  actual_num_wps_visited : Int
  deriving DecidableEq

/-- The `on_waypoint` STATUSTEXT handler (`src/start_core/mission.py`
lines 226–243): both `if` blocks run in sequence (the second is not an
`elif`), so a text matching both families increments the counter twice. -/
def on_waypoint (is_copter : Bool) (st : MonitorState) (text : String) : MonitorState :=
  let st1 :=
    if isWaypointReachedText text then
      { st with actual_num_wps_visited := st.actual_num_wps_visited + 1 }
    else st
  if isMissionTerminalText is_copter text then
    { mission_complete := true,
      actual_num_wps_visited := st1.actual_num_wps_visited + 1 }
  else st1

/-- The monitoring phase of `Mission.execute` over a completed run,
driven by a trace of delivered STATUSTEXT events, each paired with the
vehicle position at the moment of delivery. Returns the final handler
state together with the position value that the final distance check at
line 282 reads: per the Python scoping note on `MonitorState`, that
value is always `pos0`, the position sampled before the mission started
(line 221), regardless of the trace. -/
def runMonitor (is_copter : Bool) (pos0 : LocationGlobal)
    (events : List (String × LocationGlobal)) : MonitorState × LocationGlobal :=
  (events.foldl (fun st e => on_waypoint is_copter st e.1) ⟨false, 0⟩, pos0)

/-- Modelled from the spec: the monitor the specification describes, in
which a mission-terminal event captures the vehicle position at that
moment as `lastPosition`, and that captured position is what the final
distance check reads. Kept solely for comparison with `runMonitor`. -/
def runMonitorSpec (is_copter : Bool) (pos0 : LocationGlobal)
    (events : List (String × LocationGlobal)) : MonitorState × LocationGlobal :=
  events.foldl
    (fun (acc : MonitorState × LocationGlobal) e =>
      (on_waypoint is_copter acc.1 e.1,
        if isMissionTerminalText is_copter e.1 then e.2 else acc.2))
    (⟨false, 0⟩, pos0)

/-- The alarm/listener operations `Mission.execute` performs. -/
inductive TimerListenerOp where
  | setAlarm (seconds : Nat)
  | cancelAlarm
  | addListener
  | removeListener
  deriving DecidableEq

/-- The ways control can leave the monitored section of
`Mission.execute` (the `try` block, lines 225–296). -/
inductive ExitPath where
  | unresponsiveReturn
  | waypointCheckReturn
  | distancePassReturn
  | distanceFailReturn
  | raisedException
  deriving DecidableEq

/-- The alarm/listener operations performed along each exit path of the
monitored section of `Mission.execute`: `signal.alarm(time_limit)` is
armed once at line 190; the listener is attached at line 246; the
`finally` clause (lines 293–296) removes the listener on every path.
`signal.alarm(0)` — the only way to disarm a pending SIGALRM — appears
nowhere in the function (nor anywhere else in the repository), so no
path contains a `cancelAlarm`. -/
def timerListenerOps (time_limit : Nat) (_path : ExitPath) : List TimerListenerOp :=
  [.setAlarm time_limit, .addListener, .removeListener]

/-- The operations `Mission.issue` performs, in order. -/
inductive IssueStep where
  | clearCommands
  | addCommand (c : Command)
  | computeOracle
  | upload
  | waitReady
  deriving DecidableEq

/-- The operation sequence of `Mission.issue`
(`src/start_core/mission.py` lines 134–153; the earlier revision's
`issue`, lines 139–152, performs the same operations in the same order):
clear the link's command list, add each mission command, compute the
oracle, then `upload()` and `wait_ready()`. Triggering the mission
(mode switch + MISSION_START message) happens in `execute`, after
`issue` returns. -/
def issueSteps (commands : List Command) : List IssueStep :=
  .clearCommands :: (commands.map IssueStep.addCommand ++ [.computeOracle, .upload, .waitReady])

/-- The single runtime error the oracle generator of
`src/start_core/mission.py` can raise: `Oracle.build` reads `on_ground`
at line 82 but no statement initializes it before the loop (only the
`command_id == 16` and `== 20` branches assign it), so reaching the LAND
test with the workaround enabled before any WAYPOINT/RTL raises
`NameError` (Python 2: `UnboundLocalError` subclass behaviour for the
local scope). -/
inductive PyError where
  | unboundLocalOnGround
  deriving DecidableEq

/-- The loop of `Oracle.build` (`src/start_core/mission.py` lines
60–85). `on_ground : Option Bool` models the possibly-unbound Python
local (`none` = never assigned). The LAND condition
`command_id == 21 and enable_workaround and on_ground` short-circuits:
`on_ground` is only read when the id is 21 and the workaround is
enabled. The trailing `num_wps += 1` runs on every non-break iteration. -/
def oracleBuildLoop (vehicle : String) (home_loc : LocationGlobal)
    (enable_workaround : Bool) :
    List Command → Option Bool → LocationGlobal → Int →
      Except PyError (Int × LocationGlobal)
  | [], _, end_position, num_wps => .ok (num_wps, end_position)
  | c :: rest, on_ground, end_position, num_wps =>
    if c.command = 16 then
      oracleBuildLoop vehicle home_loc enable_workaround rest (some false)
        ⟨c.x, c.y, c.z⟩ (num_wps + 1)
    else if c.command = 20 then
      if vehicle = "ArduCopter" then .ok (num_wps + 1, home_loc)
      else oracleBuildLoop vehicle home_loc enable_workaround rest (some true)
        home_loc (num_wps + 1)
    else if c.command = 21 && enable_workaround then
      match on_ground with
      | none => .error .unboundLocalOnGround
      | some g =>
        if g then .ok (num_wps, end_position)
        else oracleBuildLoop vehicle home_loc enable_workaround rest (some g)
          end_position (num_wps + 1)
    else
      oracleBuildLoop vehicle home_loc enable_workaround rest on_ground
        end_position (num_wps + 1)

/-- `Oracle.build` (`src/start_core/mission.py` lines 50–94): run the
loop from the home location with `num_wps = 0` and `on_ground` unbound,
then decrement the count for ArduCopter ("first WP is completely ignored
by ArduCopter") and attach the hardcoded 3.0-metre maximum distance. -/
def oracleBuild (vehicle : String) (home_loc : LocationGlobal)
    (enable_workaround : Bool) (commands : List Command) :
    Except PyError Oracle := do
  let (num_wps, end_position) ←
    oracleBuildLoop vehicle home_loc enable_workaround commands none home_loc 0
  let num_wps := if vehicle = "ArduCopter" then num_wps - 1 else num_wps
  return ⟨num_wps, end_position, 3⟩

/-- The loop of `Mission.__generate_oracle` of the earlier revision
(top-level `mission.py` lines 68–97): identical to `Oracle.build`'s
loop except that `on_ground` is initialized to `True` (line 70), so the
function is total. -/
def generateOracleLoop (vehicle_kind : String) (home_location : LocationGlobal)
    (enable_workaround : Bool) :
    List Command → Bool → LocationGlobal → Int → Int × LocationGlobal
  | [], _, end_position, num_wps => (num_wps, end_position)
  | c :: rest, on_ground, end_position, num_wps =>
    if c.command = 16 then
      generateOracleLoop vehicle_kind home_location enable_workaround rest false
        ⟨c.x, c.y, c.z⟩ (num_wps + 1)
    else if c.command = 20 then
      if vehicle_kind = "ArduCopter" then (num_wps + 1, home_location)
      else generateOracleLoop vehicle_kind home_location enable_workaround rest true
        home_location (num_wps + 1)
    else if c.command = 21 && enable_workaround && on_ground then
      (num_wps, end_position)
    else
      generateOracleLoop vehicle_kind home_location enable_workaround rest on_ground
        end_position (num_wps + 1)

/-- `Mission.__generate_oracle` of the earlier revision: returns the
pair (`__expected_num_wps_visited`, `__expected_end_position`), with the
ArduCopter decrement applied after the loop (lines 100–101). -/
def generateOracle (vehicle_kind : String) (home_location : LocationGlobal)
    (enable_workaround : Bool) (commands : List Command) : Int × LocationGlobal :=
  let (num_wps, end_position) :=
    generateOracleLoop vehicle_kind home_location enable_workaround commands true
      home_location 0
  (if vehicle_kind = "ArduCopter" then num_wps - 1 else num_wps, end_position)

/-- Formalization of the claim's counting phrase for the ArduCopter
case: the number of commands the generator loop counts — commands up to
and including a Copter-triggering RTL break, a grounded-LAND truncation
(workaround enabled) not counted, every other processed command counted. -/
def copterCountedCommands (enable_workaround : Bool) :
    List Command → Bool → Nat
  | [], _ => 0
  | c :: rest, on_ground =>
    if c.command = 16 then copterCountedCommands enable_workaround rest false + 1
    else if c.command = 20 then 1
    else if c.command = 21 && enable_workaround && on_ground then 0
    else copterCountedCommands enable_workaround rest on_ground + 1

end StartCore

namespace StartCore

/-- Python `str.strip()` on a character list: drop leading and trailing
whitespace (`List.rdropWhile p l = (l.reverse.dropWhile p).reverse`). -/
def stripChars (l : List Char) : List Char :=
  List.rdropWhile Char.isWhitespace (l.dropWhile Char.isWhitespace)

/-- `Attacker.was_successful` (`src/start_core/attack.py` lines
150–155): after writing `CHECK`, read one reply line, strip it, and
succeed unless the stripped reply contains the substring `"NO"`
(Python's `"NO" not in reply`). -/
def was_successful (reply : String) : Bool :=
  !(decide ("NO".toList <:+: stripChars reply.toList))

/-- Python `str.split()` with no separator: split on runs of whitespace,
producing no empty tokens. -/
def splitWsAux : List Char → List Char → List (List Char)
  | [], acc => if acc.isEmpty then [] else [acc.reverse]
  | c :: rest, acc =>
    if c.isWhitespace then
      if acc.isEmpty then splitWsAux rest []
      else acc.reverse :: splitWsAux rest []
    else splitWsAux rest (c :: acc)

/-- Python `s.split()` for a whole string. -/
def pySplitWs (s : String) : List (List Char) :=
  splitWsAux s.toList []

/-- Digits of a token read as a natural number (the token must be
checked to be all digits separately). -/
def digitsToNat (l : List Char) : Nat :=
  l.foldl (fun a c => a * 10 + (c.toNat - 48)) 0

/-- Python `int(token)` on a stripped token: optional sign followed by
at least one decimal digit (underscored literals and other bases are not
used by mission files and are not modelled). `none` models the
`ValueError` that `parse_command` lets escape. -/
def pyInt (token : List Char) : Option Int :=
  let core : List Char → Option Int := fun l =>
    if l.isEmpty || !(l.all Char.isDigit) then none
    else some (Int.ofNat (digitsToNat l))
  match stripChars token with
  | '+' :: rest => core rest
  | '-' :: rest => (core rest).map Neg.neg
  | rest => core rest

/-- Exponent suffix of a Python float literal: optional sign and at
least one digit; scales the mantissa by the corresponding power of ten. -/
def pyFloatExponent (mantissa : ℚ) (l : List Char) : Option ℚ :=
  let apply : Bool → List Char → Option ℚ := fun negative ds =>
    if ds.isEmpty || !(ds.all Char.isDigit) then none
    else if negative then some (mantissa / 10 ^ digitsToNat ds)
    else some (mantissa * 10 ^ digitsToNat ds)
  match l with
  | '+' :: rest => apply false rest
  | '-' :: rest => apply true rest
  | rest => apply false rest

/-- Python `float(token)` on finite decimal literals: optional sign,
digits with an optional fractional part (at least one digit overall),
and an optional exponent. The exact binary-float rounding of CPython is
not modelled — values are kept as exact rationals — and neither are
`inf`/`nan`, which mission files do not contain; `none` models
`ValueError`. -/
def pyFloat (token : List Char) : Option ℚ :=
  let core : List Char → Option ℚ := fun l =>
    let ip := l.takeWhile Char.isDigit
    let r1 := l.dropWhile Char.isDigit
    let fp := match r1 with
      | '.' :: rest => rest.takeWhile Char.isDigit
      | _ => []
    let r2 := match r1 with
      | '.' :: rest => rest.dropWhile Char.isDigit
      | _ => r1
    if ip.isEmpty && fp.isEmpty then none
    else
      let mantissa : ℚ :=
        (digitsToNat ip : ℚ) + (digitsToNat fp : ℚ) / 10 ^ fp.length
      match r2 with
      | [] => some mantissa
      | 'e' :: rest => pyFloatExponent mantissa rest
      | 'E' :: rest => pyFloatExponent mantissa rest
      | _ => none
  match stripChars token with
  | '+' :: rest => core rest
  | '-' :: rest => (core rest).map Neg.neg
  | rest => core rest

/-- `parse_command` (`src/start_core/mission.py` lines 23–38; identical
to `Mission.__parse_command` of the earlier revision): split the line on
whitespace, convert fields `0`, `2`, `3` with `int` (field `1` is read
by neither revision — `int(args[1])` is commented out — and
`arg_currentwp` is the literal `0`), convert fields `4`–`10`
(`args[4:11]`) with `float`, and build the dronekit `Command` with
`current = 0` and `autocontinue = 0`. A missing field (`IndexError`), a
slice of fewer than seven values (unpacking `ValueError`), or a
malformed number (`ValueError`) is a parse failure, modelled as `none`;
fields past the eleventh lie outside `args[4:11]` and are ignored. -/
def parse_command (s : String) : Option Command :=
  Option.bind (pySplitWs s)[0]? fun a0 =>
  Option.bind (pyInt a0) fun _arg_index =>
  Option.bind (pySplitWs s)[2]? fun a2 =>
  Option.bind (pyInt a2) fun arg_frame =>
  Option.bind (pySplitWs s)[3]? fun a3 =>
  Option.bind (pyInt a3) fun arg_cmd =>
  Option.bind (((pySplitWs s).drop 4).take 7 |>.mapM pyFloat) fun vals =>
  match vals with
  | [p1, p2, p3, p4, x, y, z] =>
    some ⟨arg_frame, arg_cmd, 0, 0, p1, p2, p3, p4, x, y, z⟩
  | _ => none

/-- The time-limit / vehicle-kind independent part of `Mission.execute`
needs a couple of concrete inputs below. Origin location. -/
def loc0 : LocationGlobal := ⟨0, 0, 0⟩

/-- A location one degree of latitude from `loc0` (about 111 km). -/
def loc1 : LocationGlobal := ⟨1, 0, 0⟩

/-- A concrete oracle with the code's fixed 3-metre tolerance. -/
def oracle0 : Oracle := ⟨3, loc0, 3⟩

/-- A LAND command (`MAV_CMD_NAV_LAND`, id 21) with zeroed parameters. -/
def landCommand : Command := ⟨3, 21, 0, 0, 0, 0, 0, 0, 0, 0, 0⟩

/-- A well-formed mission-file line (eleven fields). -/
def lineA : String := "0 1 3 16 0.1 0.2 0.3 0.4 1.5 2.5 3.5"

/-- The same line with a different second field and a twelfth field. -/
def lineB : String := "0 999 3 16 0.1 0.2 0.3 0.4 1.5 2.5 3.5 77"

end StartCore

namespace StartCore

/-- C1: the claim states that a completed run whose terminal distance
exceeds the oracle's tolerance fails with the terminal-position reason
and that a run within tolerance passes. The packaged code inverts this:
with the expected end position at `loc0`, a last observed position
`loc1` about 111 km away (far beyond the 3-metre tolerance) yields
`(True, None)` — a pass — while a last observed position exactly at the
expected end position (distance 0) yields the too-far failure. The
`else` branch even logs "distance … exceeded maximum" while its own
condition asserts the distance did not exceed it, so the comparison is a
slip, not intent (the earlier revision passes on `dist < 3.0`). -/
theorem C1_terminal_distance_check_inverted :
    distanceGt oracle0.end_position loc1 oracle0.max_distance = true ∧
    completionVerdict false 0 oracle0 loc1 = .passed ∧
    distanceGt oracle0.end_position loc0 oracle0.max_distance = false ∧
    completionVerdict false 0 oracle0 loc0 =
      .failed "vehicle was too far away from expected end position" := by
  refine ⟨?_, ?_, ?_, ?_⟩ <;>
    norm_num [completionVerdict, distanceGt, distanceSq, oracle0, loc0, loc1, kScale]

/-- C2: the claim states that with `checkWaypoints` enabled the run
fails with the insufficient-waypoints reason exactly when the actual
count is strictly below the oracle's minimum. The packaged code computes
`sat_wps = actual >= minimum` and then fails when `check_wps and
sat_wps` — the inverted condition: visiting 5 of a required 3 waypoints
fails with that reason, while visiting 0 of 3 does not (the run goes on
to the distance check instead). The branch's own log line says "vehicle
failed to visit the minimum required number of WPs", contradicting its
condition. -/
theorem C2_waypoint_check_inverted :
    completionVerdict true 5 oracle0 loc1 =
      .failed "vehicle didn't visit all of the WPs" ∧
    completionVerdict true 0 oracle0 loc0 ≠
      .failed "vehicle didn't visit all of the WPs" := by
  constructor
  · norm_num [completionVerdict, distanceGt, distanceSq, oracle0, loc0, loc1, kScale]
  · norm_num [completionVerdict, distanceGt, distanceSq, oracle0, loc0, loc1, kScale]
    decide

/-- C3: the claim states that the position captured by the handler at
the mission-terminal event (not the pre-mission sample) feeds the final
distance check. In the code, the handler's `pos_last = …` is a fresh
Python local, so for a run starting at `loc0` that receives a
"Mission Complete" event while the vehicle is at `loc1`, the monitor
marks the mission complete but the distance check still reads `loc0`,
while the handler described by the claim would have captured `loc1`. -/
theorem C3_last_position_not_captured :
    (runMonitor false loc0 [("Mission Complete", loc1)]).1.mission_complete = true ∧
    (runMonitor false loc0 [("Mission Complete", loc1)]).2 = loc0 ∧
    (runMonitorSpec false loc0 [("Mission Complete", loc1)]).2 = loc1 ∧
    loc0 ≠ loc1 := by
  refine ⟨by decide, by decide, by decide, by decide⟩

/-- C4 counterexample: the claim states the deadline timer is cancelled
on every exit path; on the passing exit path the performed operations
contain no `cancelAlarm` (the code never calls `signal.alarm(0)`). -/
theorem C4_counterexample_alarm_not_cancelled :
    TimerListenerOp.cancelAlarm ∉ timerListenerOps 40 ExitPath.distancePassReturn := by
  decide

/-- C4 amended: on every exit path of the monitored section the
STATUSTEXT listener is unsubscribed (the `finally` clause), but the
SIGALRM deadline is never cancelled on any path, so it can still fire
after `execute` has returned. -/
theorem C4_listener_removed_alarm_never_cancelled :
    ∀ (time_limit : Nat) (path : ExitPath),
      TimerListenerOp.removeListener ∈ timerListenerOps time_limit path ∧
      TimerListenerOp.cancelAlarm ∉ timerListenerOps time_limit path := by
  intro time_limit path
  constructor
  · simp [timerListenerOps]
  · simp [timerListenerOps]

/-- C5 counterexample: the claim states that upload and wait-for-sync
precede the oracle computation. In `issue`'s operation sequence for the
empty mission the oracle computation (index 1) precedes the upload
(index 2), so the claimed ordering fails. -/
theorem C5_counterexample_oracle_computed_before_upload :
    issueSteps [] =
      [.clearCommands, .computeOracle, .upload, .waitReady] ∧
    ¬ (issueSteps []).indexOf IssueStep.upload <
        (issueSteps []).indexOf IssueStep.computeOracle := by
  constructor
  · rfl
  · decide

/-- C5 amended: during `Mission.issue` the oracle is computed exactly
once, after every command has been added to the link's command list, and
before the upload and the wait-for-sync (and hence before the mission is
triggered, which only happens in `execute` after `issue` returns). -/
theorem C5_oracle_once_after_adds_before_upload :
    ∀ commands : List Command,
      ∃ pre post,
        issueSteps commands = pre ++ IssueStep.computeOracle :: post ∧
        IssueStep.computeOracle ∉ pre ∧
        IssueStep.computeOracle ∉ post ∧
        (∀ c : Command, IssueStep.addCommand c ∉ post) ∧
        IssueStep.upload ∉ pre ∧
        IssueStep.waitReady ∉ pre ∧
        post = [IssueStep.upload, IssueStep.waitReady] := by
  intro commands
  refine ⟨IssueStep.clearCommands :: commands.map IssueStep.addCommand,
    [IssueStep.upload, IssueStep.waitReady], ?_, ?_, by decide, ?_, ?_, ?_, rfl⟩
  · simp [issueSteps]
  · simp [List.mem_cons, List.mem_map]
  · intro c
    simp
  · simp [List.mem_cons, List.mem_map]
  · simp [List.mem_cons, List.mem_map]

/-- C7: the claim states the oracle generator initializes `onGround` to
true, so that a LAND command with the workaround enabled truncates
processing without counting — in particular a leading LAND. The earlier
revision does initialize `on_ground = True` and behaves as claimed
(a Plane mission consisting of a single LAND yields count 0, end
position home), but the packaged `Oracle.build` never initializes
`on_ground`, so the same input reads an unbound local and raises
`NameError` instead of truncating. -/
theorem C7_on_ground_unbound_in_packaged_revision :
    oracleBuild "ArduPlane" loc0 true [landCommand] =
      .error PyError.unboundLocalOnGround ∧
    generateOracle "ArduPlane" loc0 true [landCommand] = (0, loc0) := by
  refine ⟨rfl, rfl⟩

/-- C8: `execute` rescales the wall-clock time limit only for
speed-up factors greater than 1, to exactly
`floor (timeLimit / speedup) + 10` (truncating division applied before
the addition); for speedup 10 and time limit 300 the effective deadline
is 40 seconds, and for speedup 1 or less the limit is unchanged. -/
theorem C8_time_limit_rescaling :
    adjustTimeLimit 300 10 = 40 ∧
    (∀ time_limit speedup : Nat, 1 < speedup →
      adjustTimeLimit time_limit speedup = time_limit / speedup + 10) ∧
    (∀ time_limit speedup : Nat, speedup ≤ 1 →
      adjustTimeLimit time_limit speedup = time_limit) := by
  refine ⟨rfl, ?_, ?_⟩
  · intro time_limit speedup h
    simp [adjustTimeLimit, h]
  · intro time_limit speedup h
    simp [adjustTimeLimit, Nat.not_lt.mpr h]

/-- C8 witness: the rescaling branch at speedup 10, time limit 300, and
the unchanged branch at speedup 1. -/
theorem C8_time_limit_rescaling_witness :
    (1 < 10 ∧ adjustTimeLimit 300 10 = 300 / 10 + 10) ∧
    (1 ≤ 1 ∧ adjustTimeLimit 300 1 = 300) :=
  ⟨⟨by decide, C8_time_limit_rescaling.2.1 300 10 (by decide)⟩,
    ⟨by decide, C8_time_limit_rescaling.2.2 300 1 (by decide)⟩⟩

end StartCore

namespace StartCore

/-- C6 counterexample: the claim asserts the Copter waypoint count is
never negative, in particular non-negative for the empty command
sequence; both revisions of the generator return `0 - 1 = -1` for an
empty ArduCopter mission. -/
theorem C6_counterexample_negative_count_for_empty_mission :
    (generateOracle "ArduCopter" loc0 true []).1 = -1 ∧
    oracleBuild "ArduCopter" loc0 true [] = .ok ⟨-1, loc0, 3⟩ ∧
    ¬ 0 ≤ (generateOracle "ArduCopter" loc0 true []).1 := by
  refine ⟨rfl, rfl, by decide⟩

/-- Loop invariant for the ArduCopter count: the loop's final count is
its starting count plus the number of commands it counts. -/
theorem generateOracleLoop_copter_count (enable_workaround : Bool)
    (home : LocationGlobal) :
    ∀ (commands : List Command) (on_ground : Bool)
      (end_position : LocationGlobal) (n : Int),
      (generateOracleLoop "ArduCopter" home enable_workaround commands
          on_ground end_position n).1 =
        n + (copterCountedCommands enable_workaround commands on_ground : Int) := by
  intro commands
  induction commands with
  | nil =>
    intro g pos n
    simp [generateOracleLoop, copterCountedCommands]
  | cons c rest ih =>
    intro g pos n
    by_cases h16 : c.command = 16
    · simp [generateOracleLoop, copterCountedCommands, h16, ih]
      omega
    · by_cases h20 : c.command = 20
      · simp [generateOracleLoop, copterCountedCommands, h16, h20]
      · by_cases h21 : c.command = 21
        · rcases hw : enable_workaround with _ | _
          · subst hw
            simp [generateOracleLoop, copterCountedCommands, h16, h20, h21, ih]
            omega
          · subst hw
            rcases g with _ | _
            · simp [generateOracleLoop, copterCountedCommands, h16, h20, h21, ih]
              omega
            · simp [generateOracleLoop, copterCountedCommands, h16, h20, h21]
        · simp [generateOracleLoop, copterCountedCommands, h16, h20, h21, ih]
          omega

/-- C6 amended: for every command sequence and vehicle kind Copter the
oracle's waypoint count equals the number of commands the loop counts
(up to and including a Copter-triggering RTL break; a grounded-LAND
truncation with the workaround enabled excluded) minus 1; the count is
never below `-1`, but it is not never-negative: for the empty command
sequence it is exactly `-1`. -/
theorem C6_copter_waypoint_count :
    ∀ (enable_workaround : Bool) (home : LocationGlobal)
      (commands : List Command),
      (generateOracle "ArduCopter" home enable_workaround commands).1 =
        (copterCountedCommands enable_workaround commands true : Int) - 1 ∧
      -1 ≤ (generateOracle "ArduCopter" home enable_workaround commands).1 ∧
      (generateOracle "ArduCopter" home enable_workaround []).1 = -1 := by
  intro w home cmds
  have h := generateOracleLoop_copter_count w home cmds true home 0
  rcases hLoop : generateOracleLoop "ArduCopter" home w cmds true home 0 with ⟨n, pos⟩
  rw [hLoop] at h
  simp at h
  refine ⟨?_, ?_, ?_⟩
  · simp [generateOracle, hLoop]
    omega
  · simp [generateOracle, hLoop]
    omega
  · simp [generateOracle, generateOracleLoop, copterCountedCommands]

end StartCore

namespace StartCore

/-- Dropping a leading run of `p`-satisfying elements cannot destroy an
occurrence of a pattern whose first element falsifies `p`. -/
theorem pattern_survives_dropWhile {α : Type} (p : α → Bool) (c : α)
    (ts l : List α) (hc : p c = false) (h : (c :: ts) <:+: l) :
    (c :: ts) <:+: l.dropWhile p := by
  obtain ⟨s, t, rfl⟩ := h
  rw [List.append_assoc, List.dropWhile_append]
  split
  · simp only [List.cons_append, List.dropWhile_cons, hc, Bool.false_eq_true, if_false]
    exact ⟨[], t, by simp⟩
  · exact ⟨s.dropWhile p, t, by simp⟩

/-- The stripped reply is a contiguous part of the raw reply. -/
theorem stripChars_contained_in_self (l : List Char) : stripChars l <:+: l := by
  have h1 : List.rdropWhile Char.isWhitespace (l.dropWhile Char.isWhitespace) <+:
      l.dropWhile Char.isWhitespace := List.rdropWhile_prefix _ _
  have h2 : l.dropWhile Char.isWhitespace <:+ l := List.dropWhile_suffix _
  exact h1.isInfix.trans h2.isInfix

/-- An occurrence of `"NO"` (no whitespace characters) survives
Python's `strip()`. -/
theorem no_occurrence_survives_strip (l : List Char)
    (h : "NO".toList <:+: l) : "NO".toList <:+: stripChars l := by
  have hNO : "NO".toList = 'N' :: ['O'] := rfl
  rw [hNO] at h ⊢
  have h1 : ('N' :: ['O']) <:+: l.dropWhile Char.isWhitespace :=
    pattern_survives_dropWhile Char.isWhitespace 'N' ['O'] l (by decide) h
  have h2 : ('O' :: ['N']) <:+: (l.dropWhile Char.isWhitespace).reverse := by
    have hrev := List.reverse_infix.mpr h1
    simpa using hrev
  have h3 : ('O' :: ['N']) <:+:
      (l.dropWhile Char.isWhitespace).reverse.dropWhile Char.isWhitespace :=
    pattern_survives_dropWhile Char.isWhitespace 'O' ['N'] _ (by decide) h2
  have h4 : ('N' :: ['O']) <:+:
      ((l.dropWhile Char.isWhitespace).reverse.dropWhile Char.isWhitespace).reverse := by
    apply List.reverse_infix.mp
    simpa using h3
  simpa [stripChars, List.rdropWhile] using h4

/-- C9: `was_successful` returns true exactly when the reply line read
after `CHECK` does not contain the substring `"NO"` (stripping the line
neither creates nor destroys an occurrence of `"NO"`, since `'N'` and
`'O'` are not whitespace); in particular `"NO ATTACK DETECTED"` yields
false and `"OK"` yields true. -/
theorem C9_was_successful_no_token :
    (∀ reply : String,
      was_successful reply = true ↔ ¬ "NO".toList <:+: reply.toList) ∧
    was_successful "NO ATTACK DETECTED" = false ∧
    was_successful "OK" = true := by
  refine ⟨?_, by decide, by decide⟩
  intro reply
  unfold was_successful
  constructor
  · intro h hno
    have hstrip := no_occurrence_survives_strip _ hno
    rw [decide_eq_true hstrip] at h
    exact absurd h (by decide)
  · intro h
    have hnot : ¬ "NO".toList <:+: stripChars reply.toList := fun hs =>
      h (hs.trans (stripChars_contained_in_self _))
    rw [decide_eq_false hnot]
    rfl

end StartCore

namespace StartCore

/-- C10: `parse_command`'s output depends only on whitespace-separated
fields 1 and 3–11 of the line (0-based tokens 0 and 2–10): two lines
agreeing on those fields — whatever their second field and whatever
extra fields follow the eleventh — parse to equal `Command`s, and every
successfully parsed `Command` carries `current = 0` (the code assigns
the literal `0`, with `int(args[1])` commented out). -/
theorem C10_parse_command_field_independence :
    (∀ s t : String,
      11 ≤ (pySplitWs s).length → 11 ≤ (pySplitWs t).length →
      (pySplitWs s)[0]? = (pySplitWs t)[0]? →
      (∀ i : Nat, i < 11 → 2 ≤ i → (pySplitWs s)[i]? = (pySplitWs t)[i]?) →
      parse_command s = parse_command t) ∧
    (∀ (s : String) (c : Command), parse_command s = some c →
      c.current = 0) := by
  constructor
  · intro s t _ _ h0 hrest
    have h2 : (pySplitWs s)[2]? = (pySplitWs t)[2]? :=
      hrest 2 (by decide) (by decide)
    have h3 : (pySplitWs s)[3]? = (pySplitWs t)[3]? :=
      hrest 3 (by decide) (by decide)
    have hslice : ((pySplitWs s).drop 4).take 7 = ((pySplitWs t).drop 4).take 7 := by
      apply List.ext_getElem?
      intro i
      rw [List.getElem?_take, List.getElem?_take]
      by_cases hi : i < 7
      · rw [if_pos hi, if_pos hi, List.getElem?_drop, List.getElem?_drop]
        exact hrest (4 + i) (by omega) (by omega)
      · rw [if_neg hi, if_neg hi]
    unfold parse_command
    rw [h0, h2, h3, hslice]
  · intro s c h
    unfold parse_command at h
    simp only [Option.bind_eq_some] at h
    obtain ⟨a0, _, i0, _, a2, _, fr, _, a3, _, ci, _, vals, _, h⟩ := h
    split at h
    · cases h
      rfl
    · cases h

end StartCore

namespace StartCore

/-- C10 witness: two concrete lines that differ in their second field
and in a trailing extra field parse to the same `Command`. -/
theorem C10_parse_command_field_independence_witness :
    parse_command lineA = parse_command lineB :=
  C10_parse_command_field_independence.1 lineA lineB (by decide) (by decide)
    (by decide) (by decide)

end StartCore
